import Mathlib

/-!
Shallow embedding of `src/agents/portfolio_analysis_agent.py`, specifically the
request-handling coroutine `HandlePortfolioAnalysisRequest.run` (lines 56-175).
Python floats are modelled as exact rationals; `round(x, 2)` is modelled as
decimal round-half-to-even; the external Alpha Vantage lookup is modelled as an
oracle from symbol to lookup outcome; exceptions are modelled by explicit
result constructors.  The handler additionally returns a trace of the symbols
for which the external lookup was performed, in order, so that short-circuit
claims ("no lookups after the failing item") are statable.
-/

/-- Outcome of the external quote lookup (lines 101-106 of the source).
`throws` covers `client.get` raising (timeout), `raise_for_status` on a
non-2xx status, and `response.json()` on a malformed body.  `ok priceStr`
means the call returned structured data and
`api_data.get("Global Quote", \x7b\x7d).get("05. price")` evaluated to
`priceStr` (`none` when the nested price field is absent). -/
inductive LookupResult where
  | throws
  | ok (priceStr : Option String)
deriving DecidableEq

/-- One entry of `parameters["holdings"]`.  `item.get("symbol")` and
`item.get("allocation")` return `None` when the key is absent, hence the
`Option` fields (lines 79-80). -/
structure Item where
  symbol : Option String
  allocation : Option String
deriving DecidableEq

/-- One entry appended to `detailed_holdings` (lines 110-116). -/
structure ResolvedHolding where
  symbol : String
  allocation_percent : ℚ
  capital_allocated : ℚ
  estimated_shares : ℚ
  current_price : ℚ
deriving DecidableEq

/-- Result of processing a single holding inside the `for` loop.
`invalid` is the explicit validation branch (lines 82-88), `exn` is any
exception raised inside the inner `try` and caught at line 121 (the
caught exception handler only uses the field `symbol` of the item, line 126). -/
inductive ItemResult where
  | ok (r : ResolvedHolding)
  | invalid (message : String)
  | exn (symbol : String)
deriving DecidableEq

/-- Outcome of the whole holdings loop: either `status == "success"` with the
running `total_value` and `detailed_holdings`, or `status == "failure"` with
`error_info` fields `code` and `message`. -/
inductive Outcome where
  | success (total : ℚ) (holdings : List ResolvedHolding)
  | failure (code : String) (message : String)
deriving DecidableEq

/-- The `portfolio_summary` object (lines 132-136). -/
structure PortfolioSummary where
  total_estimated_value : ℚ
  base_capital : ℚ
  num_holdings : ℕ
deriving DecidableEq

/-- The `result_data` object (lines 131-138). -/
structure ResultData where
  portfolio_summary : PortfolioSummary
  holdings_details : List ResolvedHolding
deriving DecidableEq

/-- The `error_info` object (lines 84-87, 124-127, 143-146). -/
structure ErrorInfo where
  code : String
  message : String
deriving DecidableEq

/-- The `reply_mcp` dictionary (lines 148-162).  `result` is attached iff the
status is "success", `error` iff it is "failure". -/
structure Envelope where
  protocol : String
  version : String
  type : String
  task_id : String
  parent_task : String
  intent : Option String
  status : String
  timestamp : String
  result : Option ResultData
  error : Option ErrorInfo
deriving DecidableEq

/-- The decoded `parameters` object; `data["parameters"].get("holdings")`
yields `None` when the key is absent (line 64). -/
structure Params where
  holdings : Option (List Item)
deriving DecidableEq

/-- The JSON-decoded message body (lines 63-67).  `data.get("intent")` never
raises, hence `Option`; `data["parameters"]`, `data["task_id"]`,
`data["parent_task"]`, `data["reply_to"]` raise `KeyError` when absent, which
the outer handler at line 174 swallows, so they are `Option` here and the
`none` case leads to no reply. -/
structure DecodedData where
  intent : Option String
  parameters : Option Params
  task_id : Option String
  parent_task : Option String
  reply_to : Option String
deriving DecidableEq

/-- An inbound message body: either text that fails `json.loads` (line 60,
caught at line 172) or a decoded payload. -/
inductive InMsg where
  | malformed
  | decoded (d : DecodedData)
deriving DecidableEq

/-- Numeric value of a list of decimal digit characters. -/
def digitsVal (l : List Char) : ℕ :=
  l.foldl (fun a c => 10 * a + (c.toNat - 48)) 0

/-- Parse an unsigned decimal literal (digits with an optional fractional
part), the forms the Python `float` builtin accepts for quote prices and allocation
percentages.  Exotic accepted forms (exponents, `inf`, `nan`, underscores)
are outside the model. -/
def parseDecimal (l : List Char) : Option ℚ :=
  let intPart := l.takeWhile Char.isDigit
  let rest := l.dropWhile Char.isDigit
  match rest with
  | [] => if intPart.isEmpty then none else some (digitsVal intPart)
  | '.' :: frac =>
    if frac.all Char.isDigit && (!intPart.isEmpty || !frac.isEmpty) then
      some ((digitsVal intPart : ℚ) + (digitsVal frac : ℚ) / 10 ^ frac.length)
    else none
  | _ => none

/-- Strip leading and trailing whitespace from a character list (the Python
`float` builtin ignores surrounding whitespace). -/
def trimWs (l : List Char) : List Char :=
  ((l.dropWhile Char.isWhitespace).reverse.dropWhile Char.isWhitespace).reverse

/-- Model of Python `float(s)`: strip surrounding whitespace, optional sign,
then a decimal literal; `none` models `ValueError`. -/
def pyFloat? (s : String) : Option ℚ :=
  match trimWs s.toList with
  | '-' :: rest => (parseDecimal rest).map (fun q => -q)
  | '+' :: rest => parseDecimal rest
  | l => parseDecimal l

/-- Model of Python `allocation_str.strip("%")` (line 91): remove leading and
trailing percent signs. -/
def stripPct (s : String) : String :=
  String.mk (((s.toList.dropWhile (fun c => c == '%')).reverse.dropWhile
    (fun c => c == '%')).reverse)

/-- Python truthiness test `not x` for an optional string: true for `None`
and for the empty string (line 82). -/
def isBlank : Option String → Bool
  | none => true
  | some s => s.isEmpty

/-- How an optional string renders inside an f-string: `None` prints as
`None`, a string prints as itself (lines 126, 145). -/
def pyStrOpt : Option String → String
  | none => "None"
  | some s => s

/-- Python `repr` of an optional string as it appears inside a dict repr:
`None` or the single-quoted string. -/
def pyRepr : Option String → String
  | none => "None"
  | some s => "\x27" ++ s ++ "\x27"

/-- Rendering of the offending item inside the f-string
`"Invalid portfolio item: \x7bitem\x7d"` (line 86): the Python dict repr of
the two modelled keys. -/
def itemRepr (it : Item) : String :=
  "\x7b\x27symbol\x27: " ++ pyRepr it.symbol ++ ", \x27allocation\x27: " ++
    pyRepr it.allocation ++ "\x7d"

/-- Round-half-to-even to an integer, the tie-breaking rule of the Python
`round` builtin. -/
def roundHalfEven (q : ℚ) : ℤ :=
  let f := ⌊q⌋
  if q - f < 1 / 2 then f
  else if 1 / 2 < q - f then f + 1
  else if f % 2 = 0 then f else f + 1

/-- Model of Python `round(x, 2)` on an exact rational. -/
def round2 (q : ℚ) : ℚ :=
  (roundHalfEven (q * 100) : ℚ) / 100

/-- `total_capital = 100000.0` (line 76). -/
def totalCapital : ℚ := 100000

/-- `capital_allocated = (allocation_percent / 100.0) * total_capital`
(line 92). -/
def capitalOf (ap : ℚ) : ℚ :=
  ap / 100 * totalCapital

/-- One iteration of the `for item in portfolio_items` loop (lines 78-128),
given the lookup oracle.  Returns the item outcome together with the list of
symbols for which the external lookup was performed (empty when the iteration
raises before reaching the HTTP call).  Exceptions modelled by `exn`:
`ValueError` from `float` on a non-numeric allocation (line 91) or price
(line 107), the lookup itself raising (lines 102-104), and `ZeroDivisionError`
at line 108 when `current_price` is `0.0` (price field absent, falsy, or
parsing to zero). -/
def processItem (oracle : String → LookupResult) (it : Item) :
    ItemResult × List String :=
  if isBlank it.symbol || isBlank it.allocation then
    (.invalid ("Invalid portfolio item: " ++ itemRepr it), [])
  else
    let s := pyStrOpt it.symbol
    match pyFloat? (stripPct (pyStrOpt it.allocation)) with
    | none => (.exn s, [])
    | some ap =>
      match oracle s with
      | .throws => (.exn s, [s])
      | .ok priceStr =>
        match priceStr with
        | none => (.exn s, [s])
        | some ps =>
          if ps.isEmpty then (.exn s, [s])
          else
            match pyFloat? ps with
            | none => (.exn s, [s])
            | some p =>
              if p = 0 then (.exn s, [s])
              else
                (.ok ⟨s, ap, round2 (capitalOf ap),
                  round2 (capitalOf ap / p), p⟩, [s])

/-- The whole holdings loop (lines 78-128) with the running `total_value` and
`detailed_holdings` accumulation (lines 110-117): the first `invalid` or
`exn` item breaks with the corresponding `error_info` (values of earlier items
are then never surfaced, since `result_data` is only built on success,
line 130); otherwise every item contributes its resolved entry and its
unrounded `capital_allocated` to the total.  Also returns the concatenated
lookup trace. -/
def processHoldings (oracle : String → LookupResult) :
    List Item → Outcome × List String
  | [] => (.success 0 [], [])
  | it :: rest =>
    match processItem oracle it with
    | (.invalid m, tr) => (.failure "INVALID_PORTFOLIO_ITEM" m, tr)
    | (.exn s, tr) =>
      (.failure "API_FETCH_ERROR" ("Could not fetch data for symbol: " ++ s),
        tr)
    | (.ok r, tr) =>
      match processHoldings oracle rest with
      | (.success t hs, tr2) =>
        (.success (capitalOf r.allocation_percent + t) (r :: hs), tr ++ tr2)
      | (.failure c m, tr2) => (.failure c m, tr ++ tr2)

/-- Build `reply_mcp` (lines 148-162): constant protocol fields, the correlation
ids of the request and intent, the clock value `now`, and `result` exactly on
success / `error` exactly on failure.  On success `result_data` carries
`round(total_value, 2)`, the base capital, the number of holdings and the
detailed list (lines 130-138). -/
def mkEnvelope (tid pt : String) (intent : Option String) (oc : Outcome)
    (now : String) : Envelope :=
  match oc with
  | .success total hs =>
    { protocol := "finance_mcp", version := "1.0", type := "response",
      task_id := tid, parent_task := pt, intent := intent,
      status := "success", timestamp := now,
      result := some ⟨⟨round2 total, totalCapital, hs.length⟩, hs⟩,
      error := none }
  | .failure c m =>
    { protocol := "finance_mcp", version := "1.0", type := "response",
      task_id := tid, parent_task := pt, intent := intent,
      status := "failure", timestamp := now,
      result := none, error := some ⟨c, m⟩ }

/-- The full handler body for one received message (lines 58-175).  Returns
the reply envelope handed to the transport (`none` when no reply is sent:
malformed JSON, a `KeyError` on a required field, or iterating an absent
holdings list, all swallowed by the handlers at lines 172-175) together with
the external-lookup trace.  `now` is the UTC timestamp string of line 156. -/
def run (oracle : String → LookupResult) (now : String) (msg : InMsg) :
    Option Envelope × List String :=
  match msg with
  | .malformed => (none, [])
  | .decoded d =>
    match d.parameters, d.task_id, d.parent_task, d.reply_to with
    | some ps, some tid, some pt, some _ =>
      if d.intent = some "analyze_portfolio" then
        match ps.holdings with
        | none => (none, [])
        | some items =>
          (some (mkEnvelope tid pt d.intent (processHoldings oracle items).1 now),
            (processHoldings oracle items).2)
      else
        (some (mkEnvelope tid pt d.intent
          (.failure "UNEXPECTED_INTENT"
            ("Unexpected intent: " ++ pyStrOpt d.intent)) now), [])
    | _, _, _, _ => (none, [])

/-- An item that the loop processes to completion under the given oracle. -/
def itemOkB (oracle : String → LookupResult) (it : Item) : Bool :=
  match (processItem oracle it).1 with
  | .ok _ => true
  | _ => false

/-- Concatenated lookup trace of a list of items. -/
def itemsTrace (oracle : String → LookupResult) (l : List Item) :
    List String :=
  (l.map (fun it => (processItem oracle it).2)).flatten

/-- A decoded message with all required fields present. -/
def mkMsg (intent : Option String) (holdings : Option (List Item))
    (tid pt rt : String) : InMsg :=
  .decoded ⟨intent, some ⟨holdings⟩, some tid, some pt, some rt⟩

/-- Unrounded `capital_allocated` is a thousand times the allocation
percentage. -/
theorem capitalOf_eq (ap : ℚ) : capitalOf ap = 1000 * ap := by
  unfold capitalOf totalCapital
  ring

/-- On the success path the running `total_value` is the sum of the unrounded
`capital_allocated` of the resolved holdings. -/
theorem processHoldings_success_total (oracle : String → LookupResult) :
    ∀ (items : List Item) (t : ℚ) (hs : List ResolvedHolding)
      (tr : List String),
    processHoldings oracle items = (.success t hs, tr) →
    t = (hs.map (fun h => capitalOf h.allocation_percent)).sum := by
  intro items
  induction items with
  | nil =>
    intro t hs tr h
    simp only [processHoldings, Prod.mk.injEq, Outcome.success.injEq] at h
    simp [← h.1.1, ← h.1.2]
  | cons it rest ih =>
    intro t hs tr h
    rcases hp : processItem oracle it with ⟨ir, trI⟩
    cases ir with
    | ok r =>
      rcases hr : processHoldings oracle rest with ⟨oc, tr2⟩
      cases oc with
      | success t2 hs2 =>
        simp only [processHoldings, hp, hr, Prod.mk.injEq,
          Outcome.success.injEq] at h
        have ht2 := ih t2 hs2 tr2 hr
        simp [← h.1.1, ← h.1.2, ht2]
      | failure c m =>
        simp [processHoldings, hp, hr] at h
    | invalid m => simp [processHoldings, hp] at h
    | exn s => simp [processHoldings, hp] at h

/-- A prefix of items that all process to completion contributes only its
resolved entries and its lookups; a failure in the remainder propagates with
the prefix trace prepended. -/
theorem processHoldings_append_failure (oracle : String → LookupResult)
    (pre rest : List Item) (c m : String) (tr : List String)
    (hpre : ∀ it ∈ pre, itemOkB oracle it = true)
    (hrest : processHoldings oracle rest = (.failure c m, tr)) :
    processHoldings oracle (pre ++ rest)
      = (.failure c m, itemsTrace oracle pre ++ tr) := by
  induction pre with
  | nil => simpa [itemsTrace] using hrest
  | cons it pre ih =>
    have hit : itemOkB oracle it = true := hpre it (List.mem_cons_self it pre)
    have ih' := ih (fun x hx => hpre x (List.mem_cons_of_mem _ hx))
    unfold itemOkB at hit
    rcases hp : processItem oracle it with ⟨ir, trI⟩
    rw [hp] at hit
    cases ir with
    | ok r =>
      simp only [List.cons_append, processHoldings, hp, List.append_eq]
      rw [ih']
      simp [itemsTrace, hp, List.append_assoc]
    | invalid m2 => simp at hit
    | exn s2 => simp at hit

/-- C10: for every request with intent "analyze_portfolio" and an empty
holdings sequence, the outcome is success with no external lookup performed:
the result reports total_estimated_value 0.0, num_holdings 0, and an empty
holdings_details sequence. -/
theorem c10_empty_holdings_success (oracle : String → LookupResult)
    (now tid pt rt : String) :
    run oracle now (mkMsg (some "analyze_portfolio") (some []) tid pt rt)
      = (some { protocol := "finance_mcp", version := "1.0",
                type := "response", task_id := tid, parent_task := pt,
                intent := some "analyze_portfolio", status := "success",
                timestamp := now, result := some ⟨⟨0, 100000, 0⟩, []⟩,
                error := none }, []) := by
  have h0 : round2 0 = 0 := by norm_num [round2, roundHalfEven]
  simp [run, mkMsg, processHoldings, mkEnvelope, totalCapital, h0]

/-- C1 (code behavior at the failing input): when the quote lookup returns
but the response lacks the price field, `current_price` becomes 0.0 and the
division computing `estimated_shares` (line 108) raises `ZeroDivisionError`;
the handler at line 121 turns the holding into an API_FETCH_ERROR failure
envelope and aborts, instead of continuing with a sentinel
`estimated_shares`. -/
theorem c1_absent_price_field_yields_failure :
    run (fun _ => .ok none) "2024-01-01T00:00:00"
        (mkMsg (some "analyze_portfolio")
          (some [⟨some "AAPL", some "50%"⟩]) "t1" "t0" "caller")
      = (some (mkEnvelope "t1" "t0" (some "analyze_portfolio")
          (.failure "API_FETCH_ERROR" "Could not fetch data for symbol: AAPL")
          "2024-01-01T00:00:00"), ["AAPL"]) := by
  simp +decide [run, mkMsg, mkEnvelope, processHoldings, processItem, isBlank,
    pyStrOpt, stripPct, pyFloat?, trimWs, parseDecimal, digitsVal]

/-- C3: for every "analyze_portfolio" request whose holdings are a prefix of
fully processable items followed by an item with an empty or absent symbol or
allocation, processing stops at that item: the reply is a failure envelope
with code INVALID_PORTFOLIO_ITEM whose message names the offending item, no
lookup is performed for it or for any later holding, and no holdings after
the offending index appear in any output (the envelope carries no result). -/
theorem c3_invalid_item_short_circuit (oracle : String → LookupResult)
    (now tid pt rt : String) (pre post : List Item) (bad : Item)
    (hpre : ∀ it ∈ pre, itemOkB oracle it = true)
    (hbad : (isBlank bad.symbol || isBlank bad.allocation) = true) :
    run oracle now (mkMsg (some "analyze_portfolio")
        (some (pre ++ bad :: post)) tid pt rt)
      = (some (mkEnvelope tid pt (some "analyze_portfolio")
          (.failure "INVALID_PORTFOLIO_ITEM"
            ("Invalid portfolio item: " ++ itemRepr bad)) now),
         itemsTrace oracle pre) := by
  have hstep : processHoldings oracle (bad :: post)
      = (.failure "INVALID_PORTFOLIO_ITEM"
          ("Invalid portfolio item: " ++ itemRepr bad), []) := by
    simp [processHoldings, processItem, hbad]
  have hall := processHoldings_append_failure oracle pre (bad :: post) _ _ _
    hpre hstep
  simp [run, mkMsg, hall]

/-- Witness for C3 at a concrete input: a single holding with an empty
allocation string is rejected with INVALID_PORTFOLIO_ITEM and no lookup. -/
theorem c3_invalid_item_short_circuit_witness :
    run (fun _ => LookupResult.throws) "T"
        (mkMsg (some "analyze_portfolio")
          (some ([] ++ (⟨some "AAPL", some ""⟩ : Item) :: [])) "t1" "t0" "r")
      = (some (mkEnvelope "t1" "t0" (some "analyze_portfolio")
          (.failure "INVALID_PORTFOLIO_ITEM"
            ("Invalid portfolio item: " ++ itemRepr ⟨some "AAPL", some ""⟩))
          "T"),
         itemsTrace (fun _ => LookupResult.throws) []) :=
  c3_invalid_item_short_circuit (fun _ => LookupResult.throws) "T" "t1" "t0"
    "r" [] [] ⟨some "AAPL", some ""⟩ (by simp) (by decide)

/-- C2: for every "analyze_portfolio" request whose holdings are a prefix of
fully processable items followed by an item whose lookup throws, the reply is
a failure envelope with code API_FETCH_ERROR whose message names the
symbol of that holding, no holding after it is processed (the lookup trace stops at
its symbol), and no computed values of earlier holdings appear in the
response (the envelope carries no result). -/
theorem c2_lookup_throw_short_circuit (oracle : String → LookupResult)
    (now tid pt rt : String) (pre post : List Item) (bad : Item) (s : String)
    (a : ℚ)
    (hpre : ∀ it ∈ pre, itemOkB oracle it = true)
    (hsym : bad.symbol = some s) (hns : s.isEmpty = false)
    (hna : isBlank bad.allocation = false)
    (hparse : pyFloat? (stripPct (pyStrOpt bad.allocation)) = some a)
    (hthrow : oracle s = .throws) :
    run oracle now (mkMsg (some "analyze_portfolio")
        (some (pre ++ bad :: post)) tid pt rt)
      = (some (mkEnvelope tid pt (some "analyze_portfolio")
          (.failure "API_FETCH_ERROR"
            ("Could not fetch data for symbol: " ++ s)) now),
         itemsTrace oracle pre ++ [s]) := by
  have hstep : processHoldings oracle (bad :: post)
      = (.failure "API_FETCH_ERROR"
          ("Could not fetch data for symbol: " ++ s), [s]) := by
    rcases hba : bad.allocation with _ | astr
    · rw [hba] at hna
      simp [isBlank] at hna
    · rw [hba] at hna hparse
      simp only [isBlank] at hna
      simp only [pyStrOpt] at hparse
      simp [processHoldings, processItem, isBlank, hsym, hba, hns, hna,
        hparse, pyStrOpt, hthrow]
  have hall := processHoldings_append_failure oracle pre (bad :: post) _ _ _
    hpre hstep
  simp [run, mkMsg, hall]

/-- Witness for C2 at a concrete input: a single holding whose lookup throws
yields API_FETCH_ERROR naming its symbol. -/
theorem c2_lookup_throw_short_circuit_witness :
    run (fun _ => LookupResult.throws) "T"
        (mkMsg (some "analyze_portfolio")
          (some ([] ++ (⟨some "AAPL", some "50%"⟩ : Item) :: [])) "t1" "t0"
          "r")
      = (some (mkEnvelope "t1" "t0" (some "analyze_portfolio")
          (.failure "API_FETCH_ERROR"
            ("Could not fetch data for symbol: " ++ "AAPL")) "T"),
         itemsTrace (fun _ => LookupResult.throws) [] ++ ["AAPL"]) :=
  c2_lookup_throw_short_circuit (fun _ => LookupResult.throws) "T" "t1" "t0"
    "r" [] [] ⟨some "AAPL", some "50%"⟩ "AAPL" 50 (by simp) rfl (by decide)
    (by decide)
    (by simp +decide [pyFloat?, trimWs, parseDecimal, digitsVal, stripPct,
      pyStrOpt])
    rfl

/-- C9: for every "analyze_portfolio" request whose holdings are a prefix of
fully processable items followed by an item with non-empty symbol and
allocation whose allocation string does not parse as a number after stripping
the percent sign, the reply is a failure envelope with code API_FETCH_ERROR
naming the symbol (not INVALID_PORTFOLIO_ITEM), because the `ValueError` from
`float` is caught by the same handler as lookup failures; no lookup is
performed for that item. -/
theorem c9_unparsable_allocation_api_error (oracle : String → LookupResult)
    (now tid pt rt : String) (pre post : List Item) (bad : Item) (s : String)
    (hpre : ∀ it ∈ pre, itemOkB oracle it = true)
    (hsym : bad.symbol = some s) (hns : s.isEmpty = false)
    (hna : isBlank bad.allocation = false)
    (hparse : pyFloat? (stripPct (pyStrOpt bad.allocation)) = none) :
    run oracle now (mkMsg (some "analyze_portfolio")
        (some (pre ++ bad :: post)) tid pt rt)
      = (some (mkEnvelope tid pt (some "analyze_portfolio")
          (.failure "API_FETCH_ERROR"
            ("Could not fetch data for symbol: " ++ s)) now),
         itemsTrace oracle pre) := by
  have hstep : processHoldings oracle (bad :: post)
      = (.failure "API_FETCH_ERROR"
          ("Could not fetch data for symbol: " ++ s), []) := by
    rcases hba : bad.allocation with _ | astr
    · rw [hba] at hna
      simp [isBlank] at hna
    · rw [hba] at hna hparse
      simp only [isBlank] at hna
      simp only [pyStrOpt] at hparse
      simp [processHoldings, processItem, isBlank, hsym, hba, hns, hna,
        hparse, pyStrOpt]
  have hall := processHoldings_append_failure oracle pre (bad :: post) _ _ _
    hpre hstep
  simp [run, mkMsg, hall]

/-- Witness for C9 at a concrete input: allocation "abc" on a non-empty
symbol yields API_FETCH_ERROR naming the symbol, with no lookup. -/
theorem c9_unparsable_allocation_api_error_witness :
    run (fun _ => LookupResult.throws) "T"
        (mkMsg (some "analyze_portfolio")
          (some ([] ++ (⟨some "XYZ", some "abc"⟩ : Item) :: [])) "t1" "t0"
          "r")
      = (some (mkEnvelope "t1" "t0" (some "analyze_portfolio")
          (.failure "API_FETCH_ERROR"
            ("Could not fetch data for symbol: " ++ "XYZ")) "T"),
         itemsTrace (fun _ => LookupResult.throws) []) :=
  c9_unparsable_allocation_api_error (fun _ => LookupResult.throws) "T" "t1"
    "t0" "r" [] [] ⟨some "XYZ", some "abc"⟩ "XYZ" (by simp) rfl (by decide)
    (by decide) (by decide)

/-- Every reply envelope the handler sends is built by `mkEnvelope` from the
correlation ids of the request, its intent, some processing outcome, and the
clock. -/
theorem run_some_mkEnvelope (oracle : String → LookupResult) (now : String)
    (msg : InMsg) (env : Envelope) (tr : List String)
    (h : run oracle now msg = (some env, tr)) :
    ∃ tid pt intent oc, env = mkEnvelope tid pt intent oc now := by
  cases msg with
  | malformed => simp [run] at h
  | decoded d =>
    obtain ⟨i, p, ti, pa, re⟩ := d
    cases p with
    | none => simp [run] at h
    | some ps =>
      cases ti with
      | none => simp [run] at h
      | some tid =>
        cases pa with
        | none => simp [run] at h
        | some pt =>
          cases re with
          | none => simp [run] at h
          | some rt =>
            simp only [run] at h
            split at h
            · cases hh : ps.holdings with
              | none => rw [hh] at h; simp at h
              | some items =>
                rw [hh] at h
                simp only [Prod.mk.injEq, Option.some.injEq] at h
                exact ⟨tid, pt, i, (processHoldings oracle items).1, h.1.symm⟩
            · simp only [Prod.mk.injEq, Option.some.injEq] at h
              exact ⟨tid, pt, i,
                .failure "UNEXPECTED_INTENT"
                  ("Unexpected intent: " ++ pyStrOpt i), h.1.symm⟩

/-- C7: in every reply envelope, result and error are mutually exclusive and
exactly one is present: result is present iff status is "success", error is
present iff status is "failure". -/
theorem c7_result_error_exclusive (oracle : String → LookupResult)
    (now : String) (msg : InMsg) (env : Envelope) (tr : List String)
    (h : run oracle now msg = (some env, tr)) :
    (env.result.isSome = true ↔ env.status = "success") ∧
    (env.error.isSome = true ↔ env.status = "failure") ∧
    ¬(env.result.isSome = true ∧ env.error.isSome = true) ∧
    (env.result.isSome = true ∨ env.error.isSome = true) := by
  obtain ⟨tid, pt, intent, oc, henv⟩ := run_some_mkEnvelope oracle now msg
    env tr h
  subst henv
  cases oc <;> simp [mkEnvelope]

/-- Witness for C7 at a concrete input: the reply to an empty-holdings
analyze_portfolio request carries a result, no error, and status
"success". -/
theorem c7_result_error_exclusive_witness :
    (((some ⟨⟨0, 100000, 0⟩, []⟩ : Option ResultData).isSome = true ↔
        "success" = "success") ∧
      ((none : Option ErrorInfo).isSome = true ↔ "success" = "failure") ∧
      ¬((some ⟨⟨0, 100000, 0⟩, []⟩ : Option ResultData).isSome = true ∧
        (none : Option ErrorInfo).isSome = true) ∧
      ((some ⟨⟨0, 100000, 0⟩, []⟩ : Option ResultData).isSome = true ∨
        (none : Option ErrorInfo).isSome = true)) :=
  c7_result_error_exclusive (fun _ => LookupResult.throws) "T"
    (mkMsg (some "analyze_portfolio") (some []) "t1" "t0" "r")
    { protocol := "finance_mcp", version := "1.0", type := "response",
      task_id := "t1", parent_task := "t0",
      intent := some "analyze_portfolio", status := "success",
      timestamp := "T", result := some ⟨⟨0, 100000, 0⟩, []⟩, error := none }
    []
    (by
      have h0 : round2 0 = 0 := by norm_num [round2, roundHalfEven]
      simp [run, mkMsg, processHoldings, mkEnvelope, totalCapital, h0])

/-- C8: two runs of the handler over the same decodable message with the same
lookup oracle (same external prices) produce the same reply except for the
timestamp field, and the same lookup trace; in particular the
receives-nothing cases coincide. -/
theorem c8_deterministic_modulo_timestamp (oracle : String → LookupResult)
    (t1 t2 : String) (msg : InMsg) :
    ((run oracle t1 msg).1.map (fun e => { e with timestamp := "" })
        = (run oracle t2 msg).1.map (fun e => { e with timestamp := "" })) ∧
    (run oracle t1 msg).2 = (run oracle t2 msg).2 := by
  cases msg with
  | malformed => simp [run]
  | decoded d =>
    obtain ⟨i, p, ti, pa, re⟩ := d
    cases p with
    | none => simp [run]
    | some ps =>
      cases ti with
      | none => simp [run]
      | some tid =>
        cases pa with
        | none => simp [run]
        | some pt =>
          cases re with
          | none => simp [run]
          | some rt =>
            simp only [run]
            split
            · cases hh : ps.holdings with
              | none => simp
              | some items =>
                cases hoc : (processHoldings oracle items).1 <;>
                  simp [mkEnvelope, hoc]
            · cases hoc : Outcome.failure "UNEXPECTED_INTENT"
                  ("Unexpected intent: " ++ pyStrOpt i) <;>
                simp [mkEnvelope]

/-- Counterexample to C5 as stated: a decodable message (not malformed text)
whose `task_id` field is absent receives no reply — the `KeyError` at line 65
is swallowed by the outer handler at line 174 — so "receives nothing only on
undecodable input" is false. -/
theorem c5_counterexample :
    (run (fun _ => LookupResult.throws) "T"
        (.decoded ⟨some "analyze_portfolio", some ⟨some []⟩, none, some "p",
          some "r"⟩)).1 = none ∧
    (InMsg.decoded ⟨some "analyze_portfolio", some ⟨some []⟩, none, some "p",
        some "r"⟩) ≠ .malformed := by
  constructor
  · simp [run]
  · simp

/-- C5 (amended): the requester receives at most one reply per message, and
receives nothing exactly when the payload is undecodable OR a required field
(`parameters`, `task_id`, `parent_task`, `reply_to`) is absent OR the intent
is "analyze_portfolio" and the holdings list is absent (iterating `None`
raises, swallowed by the outer handler). -/
theorem c5_no_reply_characterization (oracle : String → LookupResult)
    (now : String) (msg : InMsg) :
    (run oracle now msg).1 = none ↔
      (msg = .malformed ∨
        ∃ d, msg = .decoded d ∧
          (d.parameters = none ∨ d.task_id = none ∨ d.parent_task = none ∨
            d.reply_to = none ∨
            (d.intent = some "analyze_portfolio" ∧
              d.parameters.bind Params.holdings = none))) := by
  cases msg with
  | malformed => simp [run]
  | decoded d =>
    obtain ⟨i, p, ti, pa, re⟩ := d
    cases p with
    | none => simp [run]
    | some ps =>
      cases ti with
      | none => simp [run]
      | some tid =>
        cases pa with
        | none => simp [run]
        | some pt =>
          cases re with
          | none => simp [run]
          | some rt =>
            simp only [run]
            split
            · rename_i hi
              cases hh : ps.holdings with
              | none => simp [hi, hh]
              | some items => simp [hi, hh]
            · rename_i hi
              simp [hi]

/-- C4: for every successful analyze_portfolio reply, the reported
total_estimated_value is the sum of the per-holding (unrounded)
capital_allocated amounts rounded to two decimals; and when the allocation
percentages of the reported holdings sum to 100, it equals the base capital
100000.0 within 0.01. -/
theorem c4_total_value_rounding (oracle : String → LookupResult)
    (now : String) (msg : InMsg) (env : Envelope) (tr : List String)
    (rd : ResultData)
    (h : run oracle now msg = (some env, tr))
    (hr : env.result = some rd) :
    rd.portfolio_summary.total_estimated_value
        = round2 ((rd.holdings_details.map
            (fun hd => capitalOf hd.allocation_percent)).sum) ∧
    ((rd.holdings_details.map (fun hd => hd.allocation_percent)).sum = 100 →
      |rd.portfolio_summary.total_estimated_value - totalCapital|
        ≤ 1 / 100) := by
  cases msg with
  | malformed => simp [run] at h
  | decoded d =>
    obtain ⟨i, p, ti, pa, re⟩ := d
    cases p with
    | none => simp [run] at h
    | some ps =>
      cases ti with
      | none => simp [run] at h
      | some tid =>
        cases pa with
        | none => simp [run] at h
        | some pt =>
          cases re with
          | none => simp [run] at h
          | some rt =>
            simp only [run] at h
            split at h
            · cases hh : ps.holdings with
              | none => rw [hh] at h; simp at h
              | some items =>
                rw [hh] at h
                simp only [Prod.mk.injEq, Option.some.injEq] at h
                rcases hph : processHoldings oracle items with ⟨oc, tr2⟩
                rw [hph] at h
                cases oc with
                | failure c m =>
                  rw [← h.1] at hr
                  simp [mkEnvelope] at hr
                | success t hs =>
                  rw [← h.1] at hr
                  simp only [mkEnvelope, Option.some.injEq] at hr
                  have ht := processHoldings_success_total oracle items t hs
                    tr2 hph
                  subst hr
                  refine ⟨by simp [ht], ?_⟩
                  intro hsum
                  have hcap : ((hs.map
                      (fun hd => capitalOf hd.allocation_percent)).sum : ℚ)
                      = 1000 * (hs.map
                          (fun hd => hd.allocation_percent)).sum := by
                    simp only [capitalOf_eq]
                    exact List.sum_map_mul_left hs
                      (fun hd => hd.allocation_percent) 1000
                  have h100 : t = 100000 := by
                    rw [ht, hcap, hsum]; norm_num
                  have hrd : round2 t = 100000 := by
                    rw [h100]; norm_num [round2, roundHalfEven]
                  simp [hrd, totalCapital]
            · simp only [Prod.mk.injEq, Option.some.injEq] at h
              rw [← h.1] at hr
              simp [mkEnvelope] at hr

/-- Witness for C4 at a concrete input: the empty-holdings success reply
reports total 0, the rounded sum over an empty sequence. -/
theorem c4_total_value_rounding_witness :
    ((⟨⟨0, 100000, 0⟩, []⟩ : ResultData).portfolio_summary.total_estimated_value
        = round2 (((⟨⟨0, 100000, 0⟩, []⟩ : ResultData).holdings_details.map
            (fun hd => capitalOf hd.allocation_percent)).sum) ∧
      (((⟨⟨0, 100000, 0⟩, []⟩ : ResultData).holdings_details.map
          (fun hd => hd.allocation_percent)).sum = 100 →
        |(⟨⟨0, 100000, 0⟩, []⟩ : ResultData).portfolio_summary.total_estimated_value
            - totalCapital| ≤ 1 / 100)) :=
  c4_total_value_rounding (fun _ => LookupResult.throws) "T"
    (mkMsg (some "analyze_portfolio") (some []) "t1" "t0" "r")
    { protocol := "finance_mcp", version := "1.0", type := "response",
      task_id := "t1", parent_task := "t0",
      intent := some "analyze_portfolio", status := "success",
      timestamp := "T", result := some ⟨⟨0, 100000, 0⟩, []⟩, error := none }
    [] ⟨⟨0, 100000, 0⟩, []⟩
    (by
      have h0 : round2 0 = 0 := by norm_num [round2, roundHalfEven]
      simp [run, mkMsg, processHoldings, mkEnvelope, totalCapital, h0])
    rfl

/-- C6: every holding processed to completion has
capital_allocated = round(a/100 * 100000, 2) and
estimated_shares = round(capital_allocated-unrounded / current_price, 2)
where a is the parsed allocation percentage; and on the concrete scenario
[AAPL 50% at price 100, MSFT 50% at price 200] the reply lists capital 50000
with 500 shares for AAPL and capital 50000 with 250 shares for MSFT, total
100000. -/
theorem c6_holding_formulas_and_scenario :
    (∀ (oracle : String → LookupResult) (it : Item) (r : ResolvedHolding)
       (tr : List String) (a : ℚ),
       processItem oracle it = (.ok r, tr) →
       pyFloat? (stripPct (pyStrOpt it.allocation)) = some a →
       r.allocation_percent = a ∧
       r.capital_allocated = round2 (a / 100 * 100000) ∧
       r.estimated_shares = round2 (a / 100 * 100000 / r.current_price)) ∧
    (∀ now tid pt rt : String,
      run (fun s => if s = "AAPL" then LookupResult.ok (some "100.0000")
            else if s = "MSFT" then LookupResult.ok (some "200.0000")
            else LookupResult.throws) now
          (mkMsg (some "analyze_portfolio")
            (some [⟨some "AAPL", some "50%"⟩, ⟨some "MSFT", some "50%"⟩])
            tid pt rt)
        = (some { protocol := "finance_mcp", version := "1.0",
                  type := "response", task_id := tid, parent_task := pt,
                  intent := some "analyze_portfolio", status := "success",
                  timestamp := now,
                  result := some ⟨⟨100000, 100000, 2⟩,
                    [⟨"AAPL", 50, 50000, 500, 100⟩,
                     ⟨"MSFT", 50, 50000, 250, 200⟩]⟩,
                  error := none }, ["AAPL", "MSFT"])) := by
  constructor
  · intro oracle it r tr a h hparse
    cases hb : isBlank it.symbol || isBlank it.allocation with
    | true => simp [processItem, hb] at h
    | false =>
      simp only [processItem, hb, Bool.false_eq_true, if_false] at h
      rw [hparse] at h
      cases horacle : oracle (pyStrOpt it.symbol) with
      | throws => rw [horacle] at h; simp at h
      | ok priceStr =>
        rw [horacle] at h
        cases priceStr with
        | none => simp at h
        | some ps =>
          cases hemp : ps.isEmpty with
          | true => simp [hemp] at h
          | false =>
            simp only [hemp, Bool.false_eq_true, if_false] at h
            cases hpp : pyFloat? ps with
            | none => rw [hpp] at h; simp at h
            | some p =>
              simp only [hpp] at h
              rcases eq_or_ne p 0 with hp0 | hp0
              · simp [hp0] at h
              · rw [if_neg hp0] at h
                simp only [Prod.mk.injEq, ItemResult.ok.injEq] at h
                rw [← h.1]
                simp [capitalOf, totalCapital]
  · intro now tid pt rt
    simp +decide [run, mkMsg, mkEnvelope, processHoldings, processItem,
      isBlank, pyStrOpt, stripPct, pyFloat?, trimWs, parseDecimal, digitsVal,
      capitalOf, totalCapital]
    norm_num [round2, roundHalfEven]

/-- Witness for C6 at a concrete input: the AAPL holding at 50% and price
100 resolves to capital 50000 and 500 shares. -/
theorem c6_holding_formulas_and_scenario_witness :
    (⟨"AAPL", 50, 50000, 500, 100⟩ : ResolvedHolding).allocation_percent
        = 50 ∧
    (⟨"AAPL", 50, 50000, 500, 100⟩ : ResolvedHolding).capital_allocated
        = round2 ((50 : ℚ) / 100 * 100000) ∧
    (⟨"AAPL", 50, 50000, 500, 100⟩ : ResolvedHolding).estimated_shares
        = round2 ((50 : ℚ) / 100 * 100000
            / (⟨"AAPL", 50, 50000, 500, 100⟩ : ResolvedHolding).current_price) :=
  c6_holding_formulas_and_scenario.1
    (fun _ => LookupResult.ok (some "100.0000"))
    ⟨some "AAPL", some "50%"⟩ ⟨"AAPL", 50, 50000, 500, 100⟩ ["AAPL"] 50
    (by
      simp +decide [processItem, isBlank, pyStrOpt, stripPct, pyFloat?,
        trimWs, parseDecimal, digitsVal, capitalOf, totalCapital]
      norm_num [round2, roundHalfEven])
    (by
      simp +decide [pyFloat?, trimWs, parseDecimal, digitsVal, stripPct,
        pyStrOpt])
